import Mathlib

/-!
Shallow embedding of the core of the ecological-niche-modeling repository
(`raster_standardsV2.py`, `raster_information_collector.py`,
`one_class_svm_model.py`, and the legacy `raster_standars.py`), together
with theorems settling the specification claims.

Modeling conventions:
* numpy float arrays are embedded over `ℚ`; where IEEE non-finite values
  matter (the `isnan` zeroing in `fit`) a dedicated four-point float type
  `QFloat` is used;
* 1-D numpy arrays become `List ℚ` or functions `ℕ → ℚ`; 2-D arrays become
  `List (List ℚ)` (row major) or functions of the two indices;
* Python exceptions become `Except`-valued results;
* `os.walk` directory listings become an explicit `List String` of file
  names plus a table `String → RLayer` mapping a path to its raster.
-/

namespace NicheModel

/-- Python `int()` applied to a rational: truncation toward zero. -/
def qtrunc (q : ℚ) : ℤ := q.num / (q.den : ℤ)

/-- Python `round(x, 5)` on a rational (rounding to 5 decimal places; the
half-way tie-break differs from Python's banker rounding only on exact
ties, which none of the claims exercise). -/
def round5 (q : ℚ) : ℚ := (round (q * 100000) : ℤ) / 100000

/-- `np.median` of a 1-D array: middle element of the sorted data, or the
average of the two middle elements for even length. -/
def medianQ (l : List ℚ) : ℚ :=
  let s := l.mergeSort (fun a b => decide (a ≤ b))
  if l.length = 0 then 0
  else if l.length % 2 = 1 then s.getD (l.length / 2) 0
  else (s.getD (l.length / 2 - 1) 0 + s.getD (l.length / 2) 0) / 2

/-- `np.arange(start, stop, step)` for a positive step: the values
`start + i*step` for `0 ≤ i < ⌈(stop-start)/step⌉`. -/
def arangeQ (start stop step : ℚ) : List ℚ :=
  let n : ℕ := if 0 < step then (((stop - start) / step)).ceil.toNat else 0
  (List.range n).map (fun i => start + (i : ℚ) * step)

/-- Affine transform of a north-up raster, `rasterio` layout
`(a, b, c, d, e, f)` with the shear terms `b = d = 0` (the source only
ever reads indices 0, 2, 4 and 5 and assumes axis-aligned rasters):
`x = a*col + c`, `y = e*row + f`. -/
structure AffineT where
  a : ℚ
  c : ℚ
  e : ℚ
  f : ℚ
deriving DecidableEq

/-- A raster file as the Grid Registry sees it: the metadata queried by
the validation checks plus the band-1 pixel array (`raster.read(1)`). -/
structure RLayer where
  transform : AffineT
  width : ℕ
  height : ℕ
  count : ℕ
  crs_code : ℤ
  nodata : ℚ
  dtype : String
  data1 : List (List ℚ)
deriving DecidableEq

/-- The configuration dictionary handed to `Raster_Standards.__init__`
(`raster_base_configs`). -/
structure RasterConfigs where
  country_limits : ℚ × ℚ × ℚ × ℚ
  resolution : ℚ
  crs : ℤ
  no_data_val : ℚ
  positive_mask_val : ℚ
  negative_mask_val : ℚ
deriving DecidableEq

/-- The `Raster_Standards` object (raster_standardsV2.py). -/
structure Raster_Standards where
  security_limt : ℚ
  x_min_limit : ℚ
  x_max_limit : ℚ
  y_min_limit : ℚ
  y_max_limit : ℚ
  resolution : ℚ
  crs : ℤ
  no_data_val : ℚ
  positive_mask_val : ℚ
  negative_mask_val : ℚ
  reference_raster : RLayer
  xgrid : List ℚ
  ygrid : List ℚ
  x_center_point : ℚ
  y_center_point : ℚ

/-- `Raster_Standards._construct_grids` (raster_standardsV2.py, lines
74-91): derives the two coordinate axes from the reference raster's
affine transform and dimensions.  Note the source uses `ref_aff[0]` (the
x step) for both axes. -/
def construct_grids (reference : RLayer) : List ℚ × List ℚ :=
  let ref_aff := reference.transform
  let x_min_limit := ref_aff.c
  let x_max_limit := x_min_limit + ref_aff.a * (reference.width : ℚ)
  let y_max_limit := ref_aff.f
  let y_min_limit := y_max_limit + ref_aff.e * (reference.height : ℚ)
  (arangeQ x_min_limit x_max_limit ref_aff.a,
   arangeQ y_min_limit y_max_limit ref_aff.a)

/-- `Raster_Standards.__init__` (raster_standardsV2.py, lines 46-70).
The reference raster, opened from a fixed path in the source, is passed
explicitly.  Line 64 of the source assigns
`raster_base_configs['positive_mask_val']` to `negative_mask_val`; the
embedding reproduces that assignment verbatim. -/
def mkRaster_Standards (cfg : RasterConfigs) (reference : RLayer) : Raster_Standards :=
  let grids := construct_grids reference
  { security_limt := 1
    x_min_limit := cfg.country_limits.1 - 1
    x_max_limit := cfg.country_limits.2.1 + 1
    y_min_limit := cfg.country_limits.2.2.1 - 1
    y_max_limit := cfg.country_limits.2.2.2 + 1
    resolution := cfg.resolution
    crs := cfg.crs
    no_data_val := cfg.no_data_val
    positive_mask_val := cfg.positive_mask_val
    negative_mask_val := cfg.positive_mask_val
    reference_raster := reference
    xgrid := grids.1
    ygrid := grids.2
    x_center_point := medianQ grids.1
    y_center_point := medianQ grids.2 }

/-- The checks of `Raster_Standards._read_array_standarized`
(raster_standardsV2.py), each (where the source's message interpolates
it) carrying the expected canonical value. -/
inductive RasterError where
  | northSouthOrientation : RasterError
  | tooManyLayers : RasterError
  | emptyRaster : RasterError
  | crsMismatch : ℤ → RasterError
  | resolutionMismatch : ℚ → RasterError
  | nodataMismatch : ℚ → RasterError
  | dtypeMismatch : String → RasterError
  | emptyStack : RasterError
deriving DecidableEq

/-- `Raster_Standards._read_array_standarized` (raster_standardsV2.py,
lines 128-173): the fail-fast validated read.  Checks run in source
order; the first failing check raises.  The source states the no-data
check twice verbatim (lines 157-163), so a single branch is equivalent.
On success the function returns `raster.read(1)` untouched. -/
def read_array_standarized (rs : Raster_Standards) (raster : RLayer) :
    Except RasterError (List (List ℚ)) :=
  if raster.transform.e > 0 then .error .northSouthOrientation
  else if raster.count > 1 then .error .tooManyLayers
  else if raster.count = 0 then .error .emptyRaster
  else if raster.crs_code ≠ rs.crs then .error (.crsMismatch rs.crs)
  else if ¬ (round5 rs.reference_raster.transform.a = round5 raster.transform.a) then
    .error (.resolutionMismatch (round5 rs.reference_raster.transform.a))
  else if raster.nodata ≠ rs.no_data_val then .error (.nodataMismatch rs.no_data_val)
  else if raster.dtype ≠ rs.reference_raster.dtype then
    .error (.dtypeMismatch rs.reference_raster.dtype)
  else .ok raster.data1

/-- `Raster_Standards._get_window_from_extent` (both variants): inverse
affine at the four corner coordinates of the canonical bounds, truncated
to integers; returns `((row_start, row_stop), (col_start, col_stop))`. -/
def get_window_from_extent (rs : Raster_Standards) (aff : AffineT) :
    (ℤ × ℤ) × (ℤ × ℤ) :=
  let col_start := qtrunc ((rs.x_min_limit - aff.c) / aff.a)
  let row_start := qtrunc ((rs.y_max_limit - aff.f) / aff.e)
  let col_stop := qtrunc ((rs.x_max_limit - aff.c) / aff.a)
  let row_stop := qtrunc ((rs.y_min_limit - aff.f) / aff.e)
  ((row_start, row_stop), (col_start, col_stop))

/-- `raster.read(1, window=((r0,r1),(c0,c1)))` on a row-major array, for
the non-negative windows produced by the claims' inputs. -/
def windowRead (data : List (List ℚ)) (w : (ℤ × ℤ) × (ℤ × ℤ)) :
    List (List ℚ) :=
  ((data.drop w.1.1.toNat).take (w.1.2 - w.1.1).toNat).map
    (fun row => (row.drop w.2.1.toNat).take (w.2.2 - w.2.1).toNat)

/-- Legacy `Raster_Standards.read_array_standarized`
(classes_for_wget/raster_standars.py, lines 93-108): reads the windowed
array, resamples if the resolution differs (the resampling itself is the
external bilinear `rasterio` call, passed in as `resample`), and then —
instead of raising — silently rewrites every cell equal to the layer's
declared no-data value to the canonical sentinel. -/
def read_array_standarized_legacy (rs : Raster_Standards)
    (resample : List (List ℚ) → List (List ℚ)) (raster : RLayer) :
    List (List ℚ) :=
  let raster_array := windowRead raster.data1 (get_window_from_extent rs raster.transform)
  let raster_array :=
    if ¬ (round5 rs.resolution = round5 raster.transform.a) then resample raster_array
    else raster_array
  if raster.nodata ≠ rs.no_data_val then
    raster_array.map (List.map (fun x => if x = raster.nodata then rs.no_data_val else x))
  else raster_array

/-- Lexicographic comparison of character lists, the order Python's
`sorted` uses on strings. -/
def charListLe : List Char → List Char → Bool
  | [], _ => true
  | _ :: _, [] => false
  | a :: as, b :: bs => if a < b then true else if b < a then false else charListLe as bs

/-- One insertion step of the stable ascending sort. -/
def insertSorted (x : String) : List String → List String
  | [] => [x]
  | y :: ys => if charListLe x.data y.data then x :: y :: ys else y :: insertSorted x ys

/-- Python `sorted` on a list of strings (ascending lexicographic;
insertion sort is extensionally the sort the source relies on). -/
def pySorted : List String → List String
  | [] => []
  | x :: xs => insertSorted x (pySorted xs)

/-- List version of the suffix test behind `str.endswith`. -/
def charListIsPre : List Char → List Char → Bool
  | [], _ => true
  | _ :: _, [] => false
  | a :: as, b :: bs => a == b && charListIsPre as bs

/-- Python `filename.endswith(pat)`. -/
def strEndsWith (s pat : String) : Bool :=
  charListIsPre pat.data.reverse s.data.reverse

/-- The filtering/reading loop of `Raster_Standards.get_rasters_from_dir`
(raster_standardsV2.py, lines 193-200): pairs are
`zip(sorted_paths, walk_order_names)`; the suffix test uses the walk-order
name while the file actually read is the sorted-position path. -/
def rastersLoop (rs : Raster_Standards) (table : String → RLayer) :
    List (String × String) → Except RasterError (List (List (List ℚ)))
  | [] => .ok []
  | (filepath, filename) :: rest =>
    if strEndsWith filename ".tif" then do
      let raster_array ← read_array_standarized rs (table filepath)
      let tail ← rastersLoop rs table rest
      pure (raster_array :: tail)
    else rastersLoop rs table rest

/-- `Raster_Standards.get_rasters_from_dir` (raster_standardsV2.py, lines
190-205).  `filenames` is the directory listing in `os.walk` order;
`table` maps a file name to the raster behind it (path joining with the
constant directory prefix preserves the sort order, so names stand in for
paths).  `np.stack` of an empty list raises. -/
def get_rasters_from_dir (rs : Raster_Standards) (table : String → RLayer)
    (filenames : List String) : Except RasterError (List (List (List ℚ))) := do
  let dir_files_paths_list := pySorted filenames
  let rasters ← rastersLoop rs table (dir_files_paths_list.zip filenames)
  if rasters.isEmpty then .error .emptyStack else pure rasters

/-- The mutable state of one occurrence's border walk in
`Raster_Information_Collector._treat_boarder_points`: the working
coordinate `(point_x, point_y)` and the accumulated index offsets
`(incx, incy)`. -/
structure WalkP where
  point_x : ℚ
  point_y : ℚ
  incx : ℤ
  incy : ℤ
deriving DecidableEq

/-- First quadrant `if` of `_treat_boarder_points`
(raster_information_collector.py, lines 55-59). -/
def branch1 (x_center y_center resolution : ℚ) (s : WalkP) : WalkP :=
  if s.point_x ≥ x_center ∧ s.point_y ≥ y_center then
    ⟨s.point_x - resolution, s.point_y - resolution, s.incx - 1, s.incy - 1⟩ else s

/-- Second quadrant `if` (lines 60-64). -/
def branch2 (x_center y_center resolution : ℚ) (s : WalkP) : WalkP :=
  if s.point_x ≥ x_center ∧ s.point_y ≤ y_center then
    ⟨s.point_x - resolution, s.point_y + resolution, s.incx - 1, s.incy + 1⟩ else s

/-- Third quadrant `if` (lines 65-69). -/
def branch3 (x_center y_center resolution : ℚ) (s : WalkP) : WalkP :=
  if s.point_x ≤ x_center ∧ s.point_y ≤ y_center then
    ⟨s.point_x + resolution, s.point_y + resolution, s.incx + 1, s.incy + 1⟩ else s

/-- Fourth quadrant `if` (lines 70-74). -/
def branch4 (x_center y_center resolution : ℚ) (s : WalkP) : WalkP :=
  if s.point_x ≤ x_center ∧ s.point_y ≥ y_center then
    ⟨s.point_x + resolution, s.point_y - resolution, s.incx + 1, s.incy - 1⟩ else s

/-- One pass through the four sequential quadrant `if`s of
`_treat_boarder_points` (raster_information_collector.py, lines 55-74).
They are four separate `if` statements, not an `if/elif` chain, and each
condition re-reads the coordinates already updated by the branches before
it. -/
def walkStep (x_center y_center resolution : ℚ) (s : WalkP) : WalkP :=
  branch4 x_center y_center resolution
    (branch3 x_center y_center resolution
      (branch2 x_center y_center resolution
        (branch1 x_center y_center resolution s)))

/-- The per-axis unit step toward the center that the spec's quadrant
description prescribes: `-1` when the point is beyond the center on that
axis, `+1` otherwise. -/
def stepToward (center point : ℚ) : ℤ :=
  if center < point then -1 else 1

/-- The `while (elem == -9999.0 and k < correction_limit)` loop of
`_treat_boarder_points` for one occurrence: `fuel` is the remaining step
budget, `raster` is the 2-D array as a function of (row, column) — the
source samples it at `raster_array[-new_iy, new_ix]` — and `ix`/`iy` are
the occurrence's original insertion indices.  Returns the (possibly
repaired) value together with the final walk state. -/
def walkLoop (x_center y_center resolution : ℚ) (raster : ℤ → ℤ → ℚ)
    (ix iy : ℤ) : ℕ → WalkP → ℚ → ℚ × WalkP
  | 0, s, elem => (elem, s)
  | fuel + 1, s, elem =>
    if elem = -9999 then
      let s' := walkStep x_center y_center resolution s
      let value := raster (-(iy + s'.incy)) (ix + s'.incx)
      let elem' := if value ≠ -9999 then value else elem
      walkLoop x_center y_center resolution raster ix iy fuel s' elem'
    else (elem, s)

/-- The per-occurrence body of `_treat_boarder_points`: a value already
different from the sentinel is left alone; a sentinel value triggers the
walk starting at the occurrence's coordinate with zero offsets. -/
def repairOne (x_center y_center resolution : ℚ) (correction_limit : ℕ)
    (raster : ℤ → ℤ → ℚ) (long lat : ℚ) (ix iy : ℤ) (elem : ℚ) : ℚ :=
  if elem = -9999 then
    (walkLoop x_center y_center resolution raster ix iy correction_limit
      ⟨long, lat, 0, 0⟩ elem).1
  else elem

/-- `Raster_Information_Collector._treat_boarder_points`
(raster_information_collector.py, lines 44-85): the `enumerate` loop over
the extracted vector, from position `i` on.  `Long`, `Lat`, `ix`, `iy`
are the occurrence arrays indexed by position. -/
def treat_boarder_points (x_center y_center resolution : ℚ)
    (correction_limit : ℕ) (raster : ℤ → ℤ → ℚ) (Long Lat : ℕ → ℚ)
    (ix iy : ℕ → ℤ) : ℕ → List ℚ → List ℚ
  | _, [] => []
  | i, elem :: rest =>
    repairOne x_center y_center resolution correction_limit raster
        (Long i) (Lat i) (ix i) (iy i) elem ::
      treat_boarder_points x_center y_center resolution correction_limit
        raster Long Lat ix iy (i + 1) rest

/-- The mean over the non-sentinel entries used by
`_fill_peristent_no_data_values_with_mean`; `np.mean` of the empty
selection is NaN, embedded here as the rational 0 produced by the
division-by-zero convention (no claim exercises that case). -/
def meanValid (v : List ℚ) : ℚ :=
  let valid := v.filter (fun x => x ≠ -9999)
  valid.sum / (valid.length : ℚ)

/-- `Raster_Information_Collector._fill_peristent_no_data_values_with_mean`
(raster_information_collector.py, lines 87-95): every entry still at the
sentinel is replaced by the mean of the non-sentinel entries. -/
def fill_peristent_no_data (v : List ℚ) : List ℚ :=
  v.map (fun elem => if elem = -9999 then meanValid v else elem)

/-- `Raster_Information_Collector._update_coverages`
(raster_information_collector.py, lines 97-109), as the stored-matrix
state transition: `stored = none` models a missing `.npy` file (the
`open` inside the `try` raises, and the `except` branch saves the new
columns).  A present file is loaded and concatenated along axis 1, which
`np.concatenate` only accepts when the row counts agree; any failure is
swallowed by the bare `except`, which then overwrites the file with the
new columns alone. -/
def update_coverages (stored : Option (List (List ℚ)))
    (coverage : List (List ℚ)) : List (List ℚ) :=
  match stored with
  | none => coverage
  | some numpy_raster_info =>
    if numpy_raster_info.length = coverage.length then
      List.zipWith (· ++ ·) numpy_raster_info coverage
    else coverage

/-- The slice of IEEE float values the `fit` normalization can produce
from finite inputs: a finite rational, the two infinities, or NaN. -/
inductive QFloat where
  | fin : ℚ → QFloat
  | inf : QFloat
  | ninf : QFloat
  | nan : QFloat
deriving DecidableEq

/-- IEEE division `(x - m) / s` for finite `x`, `m`, `s`: finite when
`s ≠ 0`; for `s = 0` the result is NaN when the numerator is 0 and a
signed infinity otherwise. -/
def normEntry (x m s : ℚ) : QFloat :=
  if s = 0 then
    (if x - m = 0 then .nan else if x - m > 0 then .inf else .ninf)
  else .fin ((x - m) / s)

/-- `train_cover_std[np.isnan(train_cover_std)] = 0` on one entry:
NaN becomes 0; every other value — infinities included — passes through
(`np.isnan` is false on ±inf). -/
def nanToZero : QFloat → QFloat
  | .nan => .fin 0
  | x => x

/-- The normalized training matrix built by `OneClassSVMModel.fit`
(one_class_svm_model.py, lines 70-71): per-row, per-covariate
`(x - mean) / std` followed by the NaN zeroing; this is the matrix handed
to `clf.fit`. -/
def fitNormMatrix (train : List (List ℚ)) (global_mean global_std : List ℚ) :
    List (List QFloat) :=
  train.map (fun row =>
    (row.zip (global_mean.zip global_std)).map
      (fun p => nanToZero (normEntry p.1 p.2.1 p.2.2)))

/-- Whether a `QFloat` is a finite value. -/
def QFloat.isFinite : QFloat → Prop
  | .fin _ => True
  | _ => False

instance : DecidablePred QFloat.isFinite := fun f => by
  cases f <;> simp [QFloat.isFinite] <;> infer_instance

/-- The per-covariate land value of `predict_land`
(one_class_svm_model.py, line 88): a stack value at or below the no-data
sentinel is replaced by that covariate's global mean. -/
def coverageEntry (stack : ℕ → ℕ → ℕ → ℚ) (global_mean : ℕ → ℚ)
    (no_data_val : ℚ) (k r c : ℕ) : ℚ :=
  if stack k r c ≤ no_data_val then global_mean k else stack k r c

/-- The normalized feature vector of one pixel in `predict_land`
(one_class_svm_model.py, lines 90-92).  In this rational embedding
division by zero yields 0, which agrees with the source's subsequent
`isnan` zeroing on the 0/0 case; the infinite case is modeled exactly in
`fitNormMatrix` where it is the object of a claim. -/
def scaledPixel (nLayers : ℕ) (stack : ℕ → ℕ → ℕ → ℚ)
    (global_mean global_std : ℕ → ℚ) (no_data_val : ℚ) (r c : ℕ) : List ℚ :=
  (List.range nLayers).map (fun k =>
    (coverageEntry stack global_mean no_data_val k r c - global_mean k) / global_std k)

/-- `np.where(land_reference == positive_mask_val)` in row-major scan
order, as the list of (row, column) pairs. -/
def landIdx (R C : ℕ) (land_reference : ℕ → ℕ → ℚ) (positive_mask_val : ℚ) :
    List (ℕ × ℕ) :=
  (List.range R).flatMap (fun r =>
    (List.range C).filterMap (fun c =>
      if land_reference r c = positive_mask_val then some (r, c) else none))

/-- `global_pred.min()`; `np.min` of an empty vector raises, embedded as
the irrelevant default 0 (the claims only touch it through pixels that
are neither positive-mask nor zero-mask). -/
def minQ : List ℚ → ℚ
  | [] => 0
  | h :: t => t.foldl min h

/-- `OneClassSVMModel.predict_land` (one_class_svm_model.py, lines
76-106) as the final pixel map `Z`: every pixel starts at the minimum
land score, land pixels (mask = positive value) then receive their own
classifier score, and pixels whose mask is 0 are finally overwritten with
the no-data sentinel, in that source order — so a mask-0 pixel ends at
the sentinel even when the positive mask value is itself 0. -/
def predict_land (nLayers R C : ℕ) (stack : ℕ → ℕ → ℕ → ℚ)
    (clf : List ℚ → ℚ) (land_reference : ℕ → ℕ → ℚ)
    (global_mean global_std : ℕ → ℚ) (positive_mask_val no_data_val : ℚ)
    (r c : ℕ) : ℚ :=
  let score := fun (p : ℕ × ℕ) =>
    clf (scaledPixel nLayers stack global_mean global_std no_data_val p.1 p.2)
  let global_pred :=
    (landIdx R C land_reference positive_mask_val).map score
  if land_reference r c = 0 then no_data_val
  else if land_reference r c = positive_mask_val then score (r, c)
  else minQ global_pred

/-- Modelled from the spec: the k-fold partitioner is
`sklearn.model_selection.KFold` (one_class_svm_model.py, lines 159-162),
whose implementation is not part of this repository.  Following the
spec's §4.3 step 2 (fixed seed, shuffled; test sizes as equal as
`count mod K` allows) and sklearn's documented contract, the shuffled
index vector is an arbitrary permutation `perm` of `0..N-1`, the first
`N mod K` test folds take `N/K + 1` consecutive elements of it and the
rest take `N/K`.  `foldSize N K i` is fold `i`'s test size. -/
def foldSize (N K i : ℕ) : ℕ :=
  N / K + if i < N % K then 1 else 0

/-- Cutting a list into consecutive chunks of the given sizes. -/
def splitInto {α : Type} : List α → List ℕ → List (List α)
  | _, [] => []
  | l, s :: ss => l.take s :: splitInto (l.drop s) ss

/-- Modelled from the spec: the test partitions of `KFold(K).split` on
`N` samples, given the shuffled index vector `perm`. -/
def testFolds (perm : List ℕ) (N K : ℕ) : List (List ℕ) :=
  splitInto perm ((List.range K).map (foldSize N K))

/-- Modelled from the spec: the train partition of fold `i` — all
indices not in its test partition, in ascending order, matching
sklearn's boolean-mask complement. -/
def trainFold (perm : List ℕ) (N K i : ℕ) : List ℕ :=
  (List.range N).filter (fun j => j ∉ (testFolds perm N K).getD i [])

/-! ### Concrete fixtures used by witnesses and counterexamples -/

/-- A 2×2 north-up reference raster: resolution 1, origin (0, 2),
EPSG 4326, sentinel -9999, float32. -/
def refLayer : RLayer :=
  ⟨⟨1, 0, -1, 2⟩, 2, 2, 1, 4326, -9999, "float32", [[1, 1], [1, 1]]⟩

/-- A grid-registry configuration whose positive and negative mask
values differ (1 and 0). -/
def cfgTest : RasterConfigs := ⟨(1, 1, 1, 1), 1, 4326, -9999, 1, 0⟩

/-- The `Raster_Standards` object built from `cfgTest` and `refLayer`;
its canonical bounds are x ∈ [0, 2], y ∈ [0, 2]. -/
def rsTest : Raster_Standards := mkRaster_Standards cfgTest refLayer

/-! ### Claim theorems -/

/-- C1: the constructed `Raster_Standards` is claimed to store the
configured positive mask value in `positive_mask_val` and the configured
negative mask value in `negative_mask_val`.  Evaluating the constructor
at a configuration with positive value 1 and negative value 0 shows the
negative-mask field receives the positive value instead: line 64 of
raster_standardsV2.py reads `raster_base_configs['positive_mask_val']`,
contradicting the constructor's own attribute documentation. -/
theorem negative_mask_val_ignores_configuration :
    cfgTest.positive_mask_val = 1 ∧ cfgTest.negative_mask_val = 0 ∧
    (mkRaster_Standards cfgTest refLayer).positive_mask_val = 1 ∧
    (mkRaster_Standards cfgTest refLayer).negative_mask_val = 1 :=
  ⟨rfl, rfl, rfl, rfl⟩

/-- C10: when a stored feature matrix exists but concatenation along the
covariate axis is impossible (row counts differ), `_update_coverages`
neither aborts nor keeps the store intact: the bare `except` saves only
the new columns, and the result necessarily differs from the previously
stored matrix. -/
theorem update_coverages_overwrites_on_row_mismatch
    (m coverage : List (List ℚ)) (h : m.length ≠ coverage.length) :
    update_coverages (some m) coverage = coverage ∧
    update_coverages (some m) coverage ≠ m := by
  have he : update_coverages (some m) coverage = coverage := by
    simp [update_coverages, h]
  refine ⟨he, ?_⟩
  rw [he]
  intro hcm
  exact h (by rw [hcm])

/-- Witness for C10: a stored 2-row matrix and a 1-row update. -/
theorem update_coverages_overwrites_on_row_mismatch_witness :
    [[(1:ℚ)], [2]].length ≠ [[(5:ℚ)]].length ∧
    update_coverages (some [[(1:ℚ)], [2]]) [[(5:ℚ)]] = [[(5:ℚ)]] ∧
    update_coverages (some [[(1:ℚ)], [2]]) [[(5:ℚ)]] ≠ [[(1:ℚ)], [2]] := by
  have h : [[(1:ℚ)], [2]].length ≠ [[(5:ℚ)]].length := by decide
  exact ⟨h, (update_coverages_overwrites_on_row_mismatch _ _ h).1,
    (update_coverages_overwrites_on_row_mismatch _ _ h).2⟩

/-- A map that fixes every element of a list is the identity on it. -/
theorem map_id_on (l : List ℚ) (f : ℚ → ℚ) (h : ∀ x ∈ l, f x = x) :
    l.map f = l := by
  induction l with
  | nil => rfl
  | cons a t ih =>
    simp only [List.map_cons, h a (by simp)]
    rw [ih (fun x hx => h x (by simp [hx]))]

/-- A vector without sentinel entries is a fixed point of the residual
mean fill. -/
theorem fill_fixes_no_sentinel (w : List ℚ) (h : ∀ x ∈ w, x ≠ -9999) :
    fill_peristent_no_data w = w := by
  unfold fill_peristent_no_data
  exact map_id_on w _ (fun x hx => if_neg (h x hx))

/-- C7: one application of the residual mean fill replaces exactly the
sentinel entries by the mean of the originally valid entries, and a
second application changes nothing. -/
theorem fill_peristent_no_data_idempotent (v : List ℚ) :
    fill_peristent_no_data (fill_peristent_no_data v) = fill_peristent_no_data v ∧
    fill_peristent_no_data v =
      v.map (fun x => if x = -9999 then meanValid v else x) := by
  refine ⟨?_, rfl⟩
  by_cases hm : meanValid v = -9999
  · have h1 : fill_peristent_no_data v = v := by
      unfold fill_peristent_no_data
      apply map_id_on
      intro x _
      by_cases hx9 : x = -9999 <;> simp [hx9, hm]
    rw [h1]
    exact h1
  · apply fill_fixes_no_sentinel
    intro x hx
    unfold fill_peristent_no_data at hx
    rcases List.mem_map.mp hx with ⟨a, _, rfl⟩
    by_cases ha9 : a = -9999 <;> simp [ha9, hm]

/-- Counterexample for C8: with training row `[1]`, mean `[0]` and a
zero standard deviation `[0]`, the division produces `(1-0)/0 = +inf`,
which `np.isnan` does not catch; the matrix handed to the classifier
retains a non-finite entry, so the claim that every non-finite value has
been set to zero is false. -/
theorem fit_norm_keeps_infinity :
    fitNormMatrix [[1]] [0] [0] = [[QFloat.inf]] ∧
    ¬ QFloat.isFinite QFloat.inf := by
  exact ⟨by simp [fitNormMatrix, normEntry, nanToZero], by decide⟩

/-- C8 (amended): the `fit` normalization leaves no NaN entry — every
NaN (the 0/0 case of a zero standard deviation) is set to zero — but
entries where the standard deviation is zero and the numerator nonzero
remain infinite rather than being zeroed. -/
theorem fit_norm_no_nan (train : List (List ℚ)) (global_mean global_std : List ℚ)
    (row : List QFloat) (hrow : row ∈ fitNormMatrix train global_mean global_std)
    (x : QFloat) (hx : x ∈ row) : x ≠ QFloat.nan := by
  rcases List.mem_map.mp hrow with ⟨r, _, rfl⟩
  rcases List.mem_map.mp hx with ⟨p, _, rfl⟩
  cases h : normEntry p.1 p.2.1 p.2.2 <;> simp [nanToZero]

/-- Witness for C8 (amended): the infinite entry of the counterexample
matrix is, indeed, not NaN. -/
theorem fit_norm_no_nan_witness :
    [QFloat.inf] ∈ fitNormMatrix [[1]] [0] [0] ∧
    QFloat.inf ∈ [QFloat.inf] ∧ QFloat.inf ≠ QFloat.nan :=
  ⟨by simp [fitNormMatrix, normEntry, nanToZero], by decide,
    fit_norm_no_nan [[1]] [0] [0] [QFloat.inf]
      (by simp [fitNormMatrix, normEntry, nanToZero]) QFloat.inf (by decide)⟩

/-- A layer matching every canonical standard of `rsTest`. -/
def layerOK : RLayer :=
  ⟨⟨1, 0, -1, 2⟩, 2, 2, 1, 4326, -9999, "float32", [[1, 2], [3, 4]]⟩

/-- A layer identical to `layerOK` except for its declared no-data value
(-1 instead of -9999); its array marks one cell with that value. -/
def layerBadNoData : RLayer :=
  ⟨⟨1, 0, -1, 2⟩, 2, 2, 1, 4326, -1, "float32", [[-1, 3], [4, 5]]⟩

/-- C2 (amended): for the fail-fast validated read
(`_read_array_standarized`, raster_standardsV2.py), a layer passing the
orientation, band-count, CRS and resolution checks but declaring a
different no-data value yields the raster-standard-mismatch error
carrying the expected sentinel, and no array; a layer matching all
checks yields its band-1 array unmodified. -/
theorem read_validated_nodata (rs : Raster_Standards) (raster : RLayer)
    (h1 : ¬ raster.transform.e > 0) (h2 : raster.count = 1)
    (h3 : raster.crs_code = rs.crs)
    (h4 : round5 rs.reference_raster.transform.a = round5 raster.transform.a) :
    (raster.nodata ≠ rs.no_data_val →
      read_array_standarized rs raster =
        .error (.nodataMismatch rs.no_data_val)) ∧
    (raster.nodata = rs.no_data_val → raster.dtype = rs.reference_raster.dtype →
      read_array_standarized rs raster = .ok raster.data1) := by
  constructor
  · intro hnd
    simp [read_array_standarized, h1, h2, h3, h4, hnd]
  · intro hnd hdt
    simp [read_array_standarized, h1, h2, h3, h4, hnd, hdt]

/-- Witness for C2 (amended): the mismatching layer is rejected with the
expected-value error; the matching layer's array comes back unmodified. -/
theorem read_validated_nodata_witness :
    read_array_standarized rsTest layerBadNoData =
      .error (.nodataMismatch (-9999)) ∧
    read_array_standarized rsTest layerOK = .ok [[1, 2], [3, 4]] := by
  constructor
  · exact (read_validated_nodata rsTest layerBadNoData
      (by norm_num [layerBadNoData]) rfl rfl rfl).1 (by norm_num [layerBadNoData, rsTest, mkRaster_Standards, cfgTest])
  · exact (read_validated_nodata rsTest layerOK
      (by norm_num [layerOK]) rfl rfl rfl).2 rfl rfl

/-- Counterexample for C2: the repository's other read path, the legacy
`read_array_standarized` (classes_for_wget/raster_standars.py, lines
93-108), does not raise on a no-data mismatch: it silently rewrites
every cell holding the layer's declared no-data value (-1) to the
canonical sentinel and returns the coerced array. -/
theorem legacy_read_rewrites_nodata :
    read_array_standarized_legacy rsTest id layerBadNoData =
      [[-9999, 3], [4, 5]] := by
  norm_num [read_array_standarized_legacy, get_window_from_extent, windowRead,
    qtrunc, round5, rsTest, mkRaster_Standards, cfgTest, refLayer, layerBadNoData]
  decide

/-- In the open north-east quadrant with a one-cell margin, exactly the
first branch fires and the step is one cell toward the center. -/
theorem walkStep_q1 (cx cy res px py : ℚ) (hres : 0 < res)
    (h1 : cx + res < px) (h2 : cy + res < py) :
    walkStep cx cy res ⟨px, py, 0, 0⟩ = ⟨px - res, py - res, -1, -1⟩ := by
  have e1 : branch1 cx cy res ⟨px, py, 0, 0⟩ = ⟨px - res, py - res, -1, -1⟩ := by
    unfold branch1
    rw [if_pos]
    · norm_num
    · exact ⟨by dsimp only; linarith, by dsimp only; linarith⟩
  have e2 : branch2 cx cy res ⟨px - res, py - res, -1, -1⟩ = ⟨px - res, py - res, -1, -1⟩ := by
    unfold branch2
    rw [if_neg]
    intro h
    have hy := h.2
    dsimp only at hy
    linarith
  have e3 : branch3 cx cy res ⟨px - res, py - res, -1, -1⟩ = ⟨px - res, py - res, -1, -1⟩ := by
    unfold branch3
    rw [if_neg]
    intro h
    have hx := h.1
    dsimp only at hx
    linarith
  have e4 : branch4 cx cy res ⟨px - res, py - res, -1, -1⟩ = ⟨px - res, py - res, -1, -1⟩ := by
    unfold branch4
    rw [if_neg]
    intro h
    have hx := h.1
    dsimp only at hx
    linarith
  unfold walkStep
  rw [e1, e2, e3, e4]

/-- In the open south-east quadrant with a one-cell x-margin, exactly the
second branch fires. -/
theorem walkStep_q2 (cx cy res px py : ℚ) (hres : 0 < res)
    (h1 : cx + res < px) (h2 : py < cy) :
    walkStep cx cy res ⟨px, py, 0, 0⟩ = ⟨px - res, py + res, -1, 1⟩ := by
  have e1 : branch1 cx cy res ⟨px, py, 0, 0⟩ = ⟨px, py, 0, 0⟩ := by
    unfold branch1
    rw [if_neg]
    intro h
    have hy := h.2
    dsimp only at hy
    linarith
  have e2 : branch2 cx cy res ⟨px, py, 0, 0⟩ = ⟨px - res, py + res, -1, 1⟩ := by
    unfold branch2
    rw [if_pos]
    · norm_num
    · exact ⟨by dsimp only; linarith, by dsimp only; linarith⟩
  have e3 : branch3 cx cy res ⟨px - res, py + res, -1, 1⟩ = ⟨px - res, py + res, -1, 1⟩ := by
    unfold branch3
    rw [if_neg]
    intro h
    have hx := h.1
    dsimp only at hx
    linarith
  have e4 : branch4 cx cy res ⟨px - res, py + res, -1, 1⟩ = ⟨px - res, py + res, -1, 1⟩ := by
    unfold branch4
    rw [if_neg]
    intro h
    have hx := h.1
    dsimp only at hx
    linarith
  unfold walkStep
  rw [e1, e2, e3, e4]

/-- In the open south-west quadrant with a one-cell y-margin, exactly the
third branch fires. -/
theorem walkStep_q3 (cx cy res px py : ℚ) (hres : 0 < res)
    (h1 : px < cx) (h2 : py < cy - res) :
    walkStep cx cy res ⟨px, py, 0, 0⟩ = ⟨px + res, py + res, 1, 1⟩ := by
  have e1 : branch1 cx cy res ⟨px, py, 0, 0⟩ = ⟨px, py, 0, 0⟩ := by
    unfold branch1
    rw [if_neg]
    intro h
    have hx := h.1
    dsimp only at hx
    linarith
  have e2 : branch2 cx cy res ⟨px, py, 0, 0⟩ = ⟨px, py, 0, 0⟩ := by
    unfold branch2
    rw [if_neg]
    intro h
    have hx := h.1
    dsimp only at hx
    linarith
  have e3 : branch3 cx cy res ⟨px, py, 0, 0⟩ = ⟨px + res, py + res, 1, 1⟩ := by
    unfold branch3
    rw [if_pos]
    · norm_num
    · exact ⟨by dsimp only; linarith, by dsimp only; linarith⟩
  have e4 : branch4 cx cy res ⟨px + res, py + res, 1, 1⟩ = ⟨px + res, py + res, 1, 1⟩ := by
    unfold branch4
    rw [if_neg]
    intro h
    have hy := h.2
    dsimp only at hy
    linarith
  unfold walkStep
  rw [e1, e2, e3, e4]

/-- In the open north-west quadrant, exactly the fourth branch fires. -/
theorem walkStep_q4 (cx cy res px py : ℚ) (h1 : px < cx) (h2 : cy < py) :
    walkStep cx cy res ⟨px, py, 0, 0⟩ = ⟨px + res, py - res, 1, -1⟩ := by
  have e1 : branch1 cx cy res ⟨px, py, 0, 0⟩ = ⟨px, py, 0, 0⟩ := by
    unfold branch1
    rw [if_neg]
    intro h
    have hx := h.1
    dsimp only at hx
    linarith
  have e2 : branch2 cx cy res ⟨px, py, 0, 0⟩ = ⟨px, py, 0, 0⟩ := by
    unfold branch2
    rw [if_neg]
    intro h
    have hx := h.1
    dsimp only at hx
    linarith
  have e3 : branch3 cx cy res ⟨px, py, 0, 0⟩ = ⟨px, py, 0, 0⟩ := by
    unfold branch3
    rw [if_neg]
    intro h
    have hy := h.2
    dsimp only at hy
    linarith
  have e4 : branch4 cx cy res ⟨px, py, 0, 0⟩ = ⟨px + res, py - res, 1, -1⟩ := by
    unfold branch4
    rw [if_pos]
    · norm_num
    · exact ⟨by dsimp only; linarith, by dsimp only; linarith⟩
  unfold walkStep
  rw [e1, e2, e3, e4]

/-- A walk whose current value is not the sentinel exits immediately. -/
theorem walkLoop_of_ne (cx cy res : ℚ) (raster : ℤ → ℤ → ℚ) (ix iy : ℤ)
    (fuel : ℕ) (s : WalkP) (elem : ℚ) (h : elem ≠ -9999) :
    walkLoop cx cy res raster ix iy fuel s elem = (elem, s) := by
  cases fuel <;> simp [walkLoop, h]

/-- Counterexample for C4: for an occurrence at (1/2, 5) — less than one
cell east of the center axis of a grid centered at (0, 0) with
resolution 1 — the first and the fourth sequential branch both fire, so
the first iteration samples the cell two rows toward the center
(pixel (-8, 10)) instead of the diagonal neighbour (-9, 9); although that
neighbour holds the valid value 7, the repair with correction limit 1
returns the sentinel, not 7. -/
theorem border_walk_near_axis_misses_neighbor :
    (fun (r c : ℤ) => if r = -9 ∧ c = 9 then (7:ℚ) else -9999)
      (-(10 + stepToward 0 5)) (10 + stepToward 0 (1/2)) = 7 ∧
    (7:ℚ) ≠ -9999 ∧
    repairOne 0 0 1 1
      (fun (r c : ℤ) => if r = -9 ∧ c = 9 then (7:ℚ) else -9999)
      (1/2) 5 10 10 (-9999) = -9999 := by
  refine ⟨by norm_num [stepToward], by norm_num, ?_⟩
  have hs : walkStep 0 0 1 ⟨1/2, 5, 0, 0⟩ = ⟨1/2, 3, 0, -2⟩ := by
    norm_num [walkStep, branch1, branch2, branch3, branch4]
  unfold repairOne
  rw [if_pos rfl]
  simp only [walkLoop, if_pos rfl, hs]
  norm_num

/-- C4 (amended): for an occurrence whose extracted value is the no-data
sentinel, lying strictly inside one quadrant of the grid far enough from
the center that a single step stays in the quadrant, and whose single
diagonal neighbour toward the center holds a valid value, the border
repair with any correction limit ≥ 1 returns that neighbour's value; and
with correction limit 0 the whole extracted vector is returned
unchanged. -/
theorem border_walk_convergence
    (cx cy res : ℚ) (raster : ℤ → ℤ → ℚ) (ix iy : ℤ) (px py : ℚ) (n : ℕ)
    (hres : 0 < res)
    (hquad : (cx + res < px ∧ cy + res < py) ∨ (cx + res < px ∧ py < cy) ∨
             (px < cx ∧ py < cy - res) ∨ (px < cx ∧ cy < py))
    (hv : raster (-(iy + stepToward cy py)) (ix + stepToward cx px) ≠ -9999) :
    repairOne cx cy res (n + 1) raster px py ix iy (-9999) =
      raster (-(iy + stepToward cy py)) (ix + stepToward cx px) ∧
    (∀ (Long Lat : ℕ → ℚ) (ixa iya : ℕ → ℤ) (i : ℕ) (arr : List ℚ),
      treat_boarder_points cx cy res 0 raster Long Lat ixa iya i arr = arr) := by
  constructor
  · have main : ∀ (sx sy : ℤ) (qx qy : ℚ),
        walkStep cx cy res ⟨px, py, 0, 0⟩ = ⟨qx, qy, sx, sy⟩ →
        stepToward cx px = sx → stepToward cy py = sy →
        repairOne cx cy res (n + 1) raster px py ix iy (-9999) =
          raster (-(iy + stepToward cy py)) (ix + stepToward cx px) := by
      intro sx sy qx qy hs hsx hsy
      rw [hsx, hsy] at hv ⊢
      unfold repairOne
      rw [if_pos rfl]
      simp only [walkLoop, if_pos rfl, hs]
      rw [if_pos hv]
      rw [walkLoop_of_ne cx cy res raster ix iy n _ _ hv]
      simp
    rcases hquad with ⟨h1, h2⟩ | ⟨h1, h2⟩ | ⟨h1, h2⟩ | ⟨h1, h2⟩
    · exact main (-1) (-1) _ _ (walkStep_q1 cx cy res px py hres h1 h2)
        (if_pos (by linarith)) (if_pos (by linarith))
    · exact main (-1) 1 _ _ (walkStep_q2 cx cy res px py hres h1 h2)
        (if_pos (by linarith)) (if_neg (by intro h; linarith))
    · exact main 1 1 _ _ (walkStep_q3 cx cy res px py hres h1 h2)
        (if_neg (by intro h; linarith)) (if_neg (by intro h; linarith))
    · exact main 1 (-1) _ _ (walkStep_q4 cx cy res px py h1 h2)
        (if_neg (by intro h; linarith)) (if_pos (by linarith))
  · intro Long Lat ixa iya i arr
    induction arr generalizing i with
    | nil => rfl
    | cons a t ih =>
      simp only [treat_boarder_points]
      rw [ih]
      unfold repairOne
      by_cases ha : a = -9999
      · rw [if_pos ha]
        rfl
      · rw [if_neg ha]

/-- Witness for C4: center (0, 0), resolution 1, occurrence at (5, 5)
with insertion indices (10, 10); the raster holds 7 at the pixel one
diagonal step toward the center and the sentinel everywhere else. -/
theorem border_walk_convergence_witness :
    (0:ℚ) < 1 ∧
    (fun (r c : ℤ) => if r = -9 ∧ c = 9 then (7:ℚ) else -9999) (-9) 9 ≠ -9999 ∧
    repairOne 0 0 1 1
      (fun (r c : ℤ) => if r = -9 ∧ c = 9 then (7:ℚ) else -9999)
      5 5 10 10 (-9999) = 7 ∧
    treat_boarder_points 0 0 1 0
      (fun (r c : ℤ) => if r = -9 ∧ c = 9 then (7:ℚ) else -9999)
      (fun _ => 5) (fun _ => 5) (fun _ => 10) (fun _ => 10) 0
      [-9999, 3] = [-9999, 3] := by
  have hv : (fun (r c : ℤ) => if r = -9 ∧ c = 9 then (7:ℚ) else -9999)
      (-(10 + stepToward 0 5)) (10 + stepToward 0 5) ≠ -9999 := by
    norm_num [stepToward]
  have h := border_walk_convergence 0 0 1
    (fun (r c : ℤ) => if r = -9 ∧ c = 9 then (7:ℚ) else -9999)
    10 10 5 5 0 (by norm_num) (Or.inl ⟨by norm_num, by norm_num⟩) hv
  refine ⟨by norm_num, by norm_num, ?_, h.2 _ _ _ _ 0 _⟩
  have h1 := h.1
  rw [h1]
  norm_num [stepToward]

/-- Counterexample for C5: with center (0, 0) and resolution 1, an
iteration starting at point (5, 1/2) fires the first branch (moving to
(4, -1/2)) and then — the four `if`s being sequential, not exclusive —
also the second branch (back up to (3, 1/2)): the net effect of the one
iteration is two cells west and zero cells north/south, not one cell
diagonally as the claim states. -/
theorem walk_step_two_cells_one_iteration :
    (walkStep 0 0 1 ⟨5, 1/2, 0, 0⟩).incx - 0 = -2 ∧
    (walkStep 0 0 1 ⟨5, 1/2, 0, 0⟩).incy - 0 = 0 := by
  norm_num [walkStep, branch1, branch2, branch3, branch4]

/-- One iteration through the four quadrant branches changes each index
offset by at most 2. -/
theorem walkStep_inc_bound (cx cy res : ℚ) (s : WalkP) :
    ((walkStep cx cy res s).incx - s.incx).natAbs ≤ 2 ∧
    ((walkStep cx cy res s).incy - s.incy).natAbs ≤ 2 := by
  unfold walkStep branch1 branch2 branch3 branch4
  constructor <;> (split_ifs <;> ((try dsimp only); omega))

/-- Unfolding one sentinel-valued iteration of the walk loop. -/
theorem walkLoop_succ_sentinel (cx cy res : ℚ) (raster : ℤ → ℤ → ℚ)
    (ix iy : ℤ) (fuel : ℕ) (s : WalkP) :
    walkLoop cx cy res raster ix iy (fuel + 1) s (-9999) =
      walkLoop cx cy res raster ix iy fuel (walkStep cx cy res s)
        (if raster (-(iy + (walkStep cx cy res s).incy))
              (ix + (walkStep cx cy res s).incx) ≠ -9999
         then raster (-(iy + (walkStep cx cy res s).incy))
              (ix + (walkStep cx cy res s).incx)
         else -9999) := by
  simp [walkLoop]

/-- C5 (amended): a walk iteration is one pass through four sequential
quadrant branches, of which more than one can fire when the point
crosses a center axis; the net per-iteration change of each index offset
is bounded by 2 cells per axis (not exactly 1), so after `k` iterations
the recomputed pixel index differs from the original by at most `2k`
cells per axis. -/
theorem walk_iteration_bound (cx cy res : ℚ) :
    (∀ s : WalkP, ((walkStep cx cy res s).incx - s.incx).natAbs ≤ 2 ∧
      ((walkStep cx cy res s).incy - s.incy).natAbs ≤ 2) ∧
    (∀ (raster : ℤ → ℤ → ℚ) (ix iy : ℤ) (fuel : ℕ) (s : WalkP) (elem : ℚ),
      ((walkLoop cx cy res raster ix iy fuel s elem).2.incx - s.incx).natAbs
        ≤ 2 * fuel ∧
      ((walkLoop cx cy res raster ix iy fuel s elem).2.incy - s.incy).natAbs
        ≤ 2 * fuel) := by
  refine ⟨walkStep_inc_bound cx cy res, ?_⟩
  intro raster ix iy fuel
  induction fuel with
  | zero =>
    intro s elem
    simp only [walkLoop]
    omega
  | succ k ih =>
    intro s elem
    by_cases he : elem = -9999
    · subst he
      rw [walkLoop_succ_sentinel]
      obtain ⟨a1, a2⟩ := walkStep_inc_bound cx cy res s
      obtain ⟨b1, b2⟩ := ih (walkStep cx cy res s)
        (if raster (-(iy + (walkStep cx cy res s).incy))
              (ix + (walkStep cx cy res s).incx) ≠ -9999
         then raster (-(iy + (walkStep cx cy res s).incy))
              (ix + (walkStep cx cy res s).incx)
         else -9999)
      constructor <;> omega
    · rw [walkLoop_of_ne cx cy res raster ix iy _ s elem he]
      simp only
      constructor <;> omega

/-- Counterexample for C3: quantifying over every classifier, the claim
fails — a classifier whose decision function returns exactly the no-data
sentinel (-9999) makes the reconstructed raster hold the sentinel at a
pixel whose mask (1) equals the positive mask value (1 ≠ 0), where the
claim demands a value different from the sentinel. -/
theorem predict_land_sentinel_score :
    predict_land 1 1 1 (fun _ _ _ => 5) (fun _ => -9999) (fun _ _ => 1)
      (fun _ => 0) (fun _ => 1) 1 (-9999) 0 0 = -9999 := by
  norm_num [predict_land]

/-- C3 (amended): provided the positive mask value is nonzero and the
classifier's scores always differ from the no-data sentinel, land-surface
reconstruction assigns to every pixel whose mask equals the positive mask
value that pixel's classifier score (in particular a value different from
the sentinel), and assigns the sentinel exactly to every pixel whose mask
is zero. -/
theorem predict_land_reconstruction
    (nLayers R C : ℕ) (stack : ℕ → ℕ → ℕ → ℚ) (clf : List ℚ → ℚ)
    (land_reference : ℕ → ℕ → ℚ) (global_mean global_std : ℕ → ℚ)
    (positive_mask_val no_data_val : ℚ)
    (hpos : positive_mask_val ≠ 0) (hclf : ∀ l, clf l ≠ no_data_val)
    (r c : ℕ) :
    (land_reference r c = positive_mask_val →
      predict_land nLayers R C stack clf land_reference global_mean global_std
          positive_mask_val no_data_val r c =
        clf (scaledPixel nLayers stack global_mean global_std no_data_val r c) ∧
      predict_land nLayers R C stack clf land_reference global_mean global_std
          positive_mask_val no_data_val r c ≠ no_data_val) ∧
    (land_reference r c = 0 →
      predict_land nLayers R C stack clf land_reference global_mean global_std
          positive_mask_val no_data_val r c = no_data_val) := by
  constructor
  · intro hm
    have h0 : land_reference r c ≠ 0 := by rw [hm]; exact hpos
    simp only [predict_land]
    rw [if_neg h0, if_pos hm]
    exact ⟨rfl, hclf _⟩
  · intro hm
    simp only [predict_land]
    rw [if_pos hm]

/-- Witness for C3 (amended): a constant-7 classifier on a 1×1 grid; the
all-positive mask pixel scores 7, the all-zero mask pixel becomes the
sentinel. -/
theorem predict_land_reconstruction_witness :
    (1:ℚ) ≠ 0 ∧ (∀ l : List ℚ, (fun (_ : List ℚ) => (7:ℚ)) l ≠ -9999) ∧
    predict_land 1 1 1 (fun _ _ _ => 5) (fun _ => (7:ℚ)) (fun _ _ => 1)
      (fun _ => 0) (fun _ => 1) 1 (-9999) 0 0 = 7 ∧
    predict_land 1 1 1 (fun _ _ _ => 5) (fun _ => (7:ℚ)) (fun _ _ => (0:ℚ))
      (fun _ => 0) (fun _ => 1) 1 (-9999) 0 0 = -9999 := by
  have hclf : ∀ l : List ℚ, (fun (_ : List ℚ) => (7:ℚ)) l ≠ -9999 :=
    fun _ => by norm_num
  have h1 := (predict_land_reconstruction 1 1 1 (fun _ _ _ => 5) (fun _ => 7)
    (fun _ _ => 1) (fun _ => 0) (fun _ => 1) 1 (-9999)
    (by norm_num) hclf 0 0).1 rfl
  have h2 := (predict_land_reconstruction 1 1 1 (fun _ _ _ => 5) (fun _ => 7)
    (fun _ _ => 0) (fun _ => 0) (fun _ => 1) 1 (-9999)
    (by norm_num) hclf 0 0).2 rfl
  exact ⟨by norm_num, hclf, h1.1.trans rfl, h2⟩

/-- Cutting a list into chunks produces one chunk per requested size. -/
theorem splitInto_length {α : Type} : ∀ (ss : List ℕ) (l : List α),
    (splitInto l ss).length = ss.length
  | [], _ => rfl
  | s :: ss, l => by simp [splitInto, splitInto_length ss]

/-- When the chunk sizes sum to the list's length, concatenating the
chunks recovers the list. -/
theorem splitInto_flatten {α : Type} : ∀ (ss : List ℕ) (l : List α),
    ss.sum = l.length → (splitInto l ss).flatten = l
  | [], l, h => by
    have hl : l = [] := List.length_eq_zero.mp (by simpa using h.symm)
    subst hl
    rfl
  | s :: ss, l, h => by
    have h' : s + ss.sum = l.length := by simpa using h
    simp only [splitInto, List.flatten_cons]
    rw [splitInto_flatten ss (l.drop s) (by simp [List.length_drop]; omega)]
    exact List.take_append_drop s l

/-- When the chunk sizes fit in the list, each chunk has its requested
size. -/
theorem splitInto_getD_length {α : Type} : ∀ (ss : List ℕ) (l : List α) (i : ℕ),
    ss.sum ≤ l.length → i < ss.length →
    ((splitInto l ss).getD i []).length = ss.getD i 0
  | [], _, i, _, hi => absurd hi (by simp)
  | s :: ss, l, 0, hsum, _ => by
    have h' : s + ss.sum ≤ l.length := by simpa using hsum
    simp only [splitInto, List.getD_cons_zero, List.length_take]
    omega
  | s :: ss, l, i + 1, hsum, hi => by
    have h' : s + ss.sum ≤ l.length := by simpa using hsum
    simp only [splitInto, List.getD_cons_succ]
    apply splitInto_getD_length ss (l.drop s) i
    · simp only [List.length_drop]
      omega
    · simpa using hi

/-- Counting how many of `0..K-1` lie below `r`. -/
theorem sum_range_ite (r K : ℕ) :
    ((List.range K).map (fun i => if i < r then 1 else 0)).sum = min r K := by
  induction K with
  | zero => simp
  | succ k ih =>
    rw [List.range_succ, List.map_append, List.sum_append, ih]
    by_cases h : k < r <;> simp [h] <;> omega

/-- Summing a constant over `0..K-1`. -/
theorem sum_map_const_range (K q : ℕ) :
    ((List.range K).map (fun _ => q)).sum = K * q := by
  induction K with
  | zero => simp
  | succ k ih =>
    rw [List.range_succ, List.map_append, List.sum_append, ih]
    simp [Nat.succ_mul]

/-- The k-fold test sizes sum to the sample count. -/
theorem foldSize_sum (N K : ℕ) (hK : 0 < K) :
    ((List.range K).map (foldSize N K)).sum = N := by
  have h1 : ((List.range K).map (foldSize N K)).sum
      = ((List.range K).map (fun _ => N / K)).sum
        + ((List.range K).map (fun i => if i < N % K then 1 else 0)).sum := by
    rw [← List.sum_map_add]
    rfl
  rw [h1, sum_map_const_range, sum_range_ite]
  have h3 : N % K < K := Nat.mod_lt _ hK
  have h4 := Nat.div_add_mod N K
  omega

/-- Each test partition has exactly its prescribed size. -/
theorem testFolds_getD_length (perm : List ℕ) (N K i : ℕ) (hK : 0 < K)
    (hlen : perm.length = N) (hi : i < K) :
    ((testFolds perm N K).getD i []).length = foldSize N K i := by
  unfold testFolds
  rw [splitInto_getD_length _ _ _ (by rw [foldSize_sum N K hK, hlen]) (by simpa using hi)]
  rw [List.getD_eq_getElem _ _ (by simpa using hi)]
  simp

/-- C6: for `K` folds over `N` shuffled occurrence indices, the test
partitions concatenate to a permutation of the full index set (each index
in exactly one partition), each fold's train set is the exact complement
of its test set (hence disjoint from it), and any two test-partition
sizes differ by at most one. -/
theorem kfold_partition (N K : ℕ) (perm : List ℕ) (hK : 0 < K) (hKN : K ≤ N)
    (hperm : perm.Perm (List.range N)) :
    (testFolds perm N K).flatten.Perm (List.range N) ∧
    (∀ i, i < K → ∀ j, j ∈ trainFold perm N K i ↔
        (j < N ∧ j ∉ (testFolds perm N K).getD i [])) ∧
    (∀ i₁ i₂, i₁ < K → i₂ < K →
      ((testFolds perm N K).getD i₁ []).length ≤
        ((testFolds perm N K).getD i₂ []).length + 1) := by
  have hlen : perm.length = N := by simpa using hperm.length_eq
  refine ⟨?_, ?_, ?_⟩
  · have hf : (testFolds perm N K).flatten = perm := by
      unfold testFolds
      exact splitInto_flatten _ _ (by rw [foldSize_sum N K hK, hlen])
    rw [hf]
    exact hperm
  · intro i _ j
    simp [trainFold, List.mem_filter, List.mem_range]
  · intro i₁ i₂ h1 h2
    rw [testFolds_getD_length perm N K i₁ hK hlen h1,
        testFolds_getD_length perm N K i₂ hK hlen h2]
    unfold foldSize
    by_cases c1 : i₁ < N % K <;> by_cases c2 : i₂ < N % K <;> simp [c1, c2] <;> omega

/-- Witness for C6: five indices, two folds, identity shuffle — the test
partitions are `[0,1,2]` and `[3,4]`. -/
theorem kfold_partition_witness :
    0 < 2 ∧ 2 ≤ 5 ∧
    (testFolds (List.range 5) 5 2).flatten.Perm (List.range 5) ∧
    (3 ∈ trainFold (List.range 5) 5 2 0 ↔
      (3 < 5 ∧ 3 ∉ (testFolds (List.range 5) 5 2).getD 0 [])) ∧
    ((testFolds (List.range 5) 5 2).getD 0 []).length ≤
      ((testFolds (List.range 5) 5 2).getD 1 []).length + 1 := by
  have h := kfold_partition 5 2 (List.range 5) (by norm_num) (by norm_num)
    (List.Perm.refl _)
  exact ⟨by norm_num, by norm_num, h.1, h.2.1 0 (by norm_num) 3,
    h.2.2 0 1 (by norm_num) (by norm_num)⟩

/-- An alternative valid layer, standing for the content of the
non-raster file `a.txt`. -/
def layerTxt : RLayer :=
  ⟨⟨1, 0, -1, 2⟩, 2, 2, 1, 4326, -9999, "float32", [[9, 8], [7, 6]]⟩

/-- The directory table for the stacking counterexample: `a.txt` holds
`layerTxt`, every other name `layerOK`. -/
def tableAB : String → RLayer :=
  fun name => if name = "a.txt" then layerTxt else layerOK

/-- C9: `get_rasters_from_dir` zips the sorted path list with the
unsorted `os.walk` name list, so on the directory listing
`["b.tif", "a.txt"]` the `.tif` suffix test of `b.tif` is paired with the
sorted path `a.txt`: the function reads exactly the non-raster file
`a.txt` (returning its array `[[9,8],[7,6]]`) and never reads `b.tif`,
contradicting its own docstring "Read all the .tif files". -/
theorem get_rasters_from_dir_reads_wrong_file :
    get_rasters_from_dir rsTest tableAB ["b.tif", "a.txt"] =
      .ok [[[9, 8], [7, 6]]] := by
  have hsort : pySorted ["b.tif", "a.txt"] = ["a.txt", "b.tif"] := by decide
  have he1 : strEndsWith "b.tif" ".tif" = true := by decide
  have he2 : strEndsWith "a.txt" ".tif" = false := by decide
  have hread : read_array_standarized rsTest (tableAB "a.txt") =
      .ok [[9, 8], [7, 6]] := by
    norm_num [read_array_standarized, tableAB, rsTest, mkRaster_Standards,
      cfgTest, refLayer, layerTxt]
  have hloop : rastersLoop rsTest tableAB
      [("a.txt", "b.tif"), ("b.tif", "a.txt")] = .ok [[[9, 8], [7, 6]]] := by
    simp only [rastersLoop, he1, he2]
    rw [hread]
    rfl
  have hz : ["a.txt", "b.tif"].zip ["b.tif", "a.txt"] =
      [("a.txt", "b.tif"), ("b.tif", "a.txt")] := rfl
  unfold get_rasters_from_dir
  simp only [hsort, hz, hloop]
  rfl

end NicheModel
